import Mathlib

/-!
AMQP router of `pkg/protocol/amqp/amqp.go`.

A shallow embedding of the QDR router: the two address-keyed maps of endpoints, the
endpoint constructors, the dispatch loop `QDRRouter`, the send goroutines and the
stand-alone constructors.  Everything the Go code obtains from a library it imports
(the AMQP transport, the cloudevents client, `context`) is represented by handles and by
an oracle `World` that decides which library calls fail.
-/

set_option linter.dupNamespace false

namespace cloudevents

/-- Event stands for `cloudevents.Event`; the router never looks inside an event, it only
forwards it, so an identifier and a body are all that is recorded. -/
structure Event where
  ID : String
  Data : String
deriving DecidableEq, Repr

/-- Result stands for the `protocol.Result` that `Client.Send` returns: `nil`, a result
wrapping `ResultACK`, a result wrapping `ResultNACK`, or any other error (a transport
failure, an expired deadline). -/
inductive Result
  | nil
  | ACK
  | NACK
  | other (err : String)
deriving DecidableEq, Repr

/-- IsACK of the cloudevents library: `nil` and ACK results. -/
def IsACK : Result → Bool
  | .nil => true
  | .ACK => true
  | _ => false

/-- IsNACK of the cloudevents library. -/
def IsNACK : Result → Bool
  | .NACK => true
  | _ => false

/-- IsUndelivered of the cloudevents library: a non-nil result that is neither ACK nor NACK. -/
def IsUndelivered : Result → Bool
  | .other _ => true
  | _ => false

end cloudevents

namespace channel

/-- Status of a `DataChan` message (`channel.Status`); `NEW` is the zero value. -/
inductive Status
  | NEW
  | SUCCEED
  | DELETE
  | FAILED
deriving DecidableEq, Repr

/-- Kind of a `DataChan` message (`channel.Type`). -/
inductive Type_
  | LISTENER
  | SENDER
  | EVENT
  | STATUS
deriving DecidableEq, Repr

/-- DataChan is the message exchanged on `DataIn` and `DataOut`.  `Data` is a pointer to an
event and the two callbacks are function values; `none` stands for `nil`. -/
structure DataChan where
  Address : String
  Data : Option cloudevents.Event := none
  Status : Status := .NEW
  Type_ : channel.Type_
  OnReceiveOverrideFn : Option (cloudevents.Event → Option String) := none
  ProcessEventFn : Option (cloudevents.Event → Option String) := none

end channel

namespace amqp1

/-- Role of a transport link. -/
inductive Role
  | sender
  | receiver
deriving DecidableEq, Repr

/-- Protocol stands for `*amqp1.Protocol`, the transport link: `id` is its identity, the
other fields record which constructor made it and with which arguments (`server` for a
link that dialled its own connection, `session` for a link opened on the router's client,
`linkCredit` for the receiver link option). -/
structure Protocol where
  id : Nat
  role : Role
  server : Option String
  session : Option Nat
  address : String
  linkCredit : Option Nat
deriving DecidableEq, Repr

end amqp1

namespace amqp

open channel (DataChan)

/-- The package variable `amqpLinkCredit`. -/
def amqpLinkCredit : Nat := 50

/-- The package variable `cancelTimeout`, in seconds. -/
def cancelTimeout : Nat := 2

/-- Protocol is the endpoint `*Protocol`: the fields of the embedded `protocol.Binder` that
this file assigns (`CancelFn`, `ParentContext`, `Client`) and the link `Protocol`.
`none` is `nil`; `{}` is the zero value `&Protocol{}`. -/
structure Protocol where
  CancelFn : Option Nat := none
  ParentContext : Option Nat := none
  Client : Option Nat := none
  Protocol : Option amqp1.Protocol := none
deriving DecidableEq, Repr

/-- Call lists the library calls that can fail. -/
inductive Call
  | Dial (server : String)
  | NewSession
  | NewSenderProtocolFromClient (session : Nat) (address : String)
  | NewReceiverProtocolFromClient (session : Nat) (address : String) (linkCredit : Nat)
  | NewSenderProtocol (server : String) (address : String)
  | NewReceiverProtocol (server : String) (address : String) (linkCredit : Nat)
  | NewClient (p : Nat)
deriving DecidableEq, Repr

/-- World is the oracle for the libraries: `w n c` is the error with which the library call
`c`, made when `n` handles have been handed out, fails, or `none` when it succeeds (its
result then is the fresh handle `n`). -/
abbrev World := Nat → Call → Option String

/-- The two maps of the router. -/
inductive MapName
  | Listeners
  | Senders
deriving DecidableEq, Repr

/-- Task is a goroutine started with `go`: the subscription `q.Receive(wg, address, fn)`
with the callback it passes to `StartReceiver` (given by the messages the callback sends
on `DataOut` for a received event), and the two send goroutines with their arguments. -/
inductive Task
  | Receive (address : String) (fn : cloudevents.Event → List DataChan)
  | SendTo (sender : Protocol) (address : String) (e : Option cloudevents.Event)
  | SendToAll (s : Protocol) (address : String) (e : cloudevents.Event)

/-- Action is one observable step of the program, in program order. -/
inductive Action
  | log (format : String)
  | fatal (format : String)
  | call (n : Nat) (c : Call) (err : Option String)
  | withCancel (h : Nat)
  | cancel (h : Nat)
  | close (p : Nat)
  | store (m : MapName) (key : String)
  | delete (m : MapName) (key : String)
  | go (t : Task)
  | out (d : DataChan)

/-- Flow is how a function ends: it returns, the process exits (`log.Fatalf`), or the
goroutine panics on a nil dereference. -/
inductive Flow (α : Type)
  | ret (a : α)
  | exit
  | panic
deriving DecidableEq, Repr

/-- Router is the struct `Router`.  The channels are not fields here: what arrives on
`DataIn` and `Close` is the input of `QDRRouter`, what is sent on `DataOut` is an `Action`.
`fresh` is not a field of the Go struct: it counts the handles handed out so far and gives
every new link, client and context its identity. -/
structure Router where
  Listeners : AList (fun _ : String => Protocol)
  Senders : AList (fun _ : String => Protocol)
  Host : String
  Client : Option Nat
  fresh : Nat

/-- InitServer builds the router with two empty maps and dials the host; a failed dial
returns the error and no router. -/
def InitServer (w : World) (n : Nat) (amqpHost : String) : List Action × Except String Router :=
  match w n (.Dial amqpHost) with
  | some err => ([.call n (.Dial amqpHost) (some err)], .error err)
  | none =>
    ([.call n (.Dial amqpHost) none],
      .ok { Listeners := ∅, Senders := ∅, Host := amqpHost, Client := some n, fresh := n + 1 })

/-- NewSession opens a session on the router's client (`q.Client.NewSession`). -/
def Router.NewSession (w : World) (q : Router) : Router × List Action × Except String Nat :=
  match w q.fresh .NewSession with
  | some err => ({ q with fresh := q.fresh + 1 }, [.call q.fresh .NewSession (some err)], .error err)
  | none => ({ q with fresh := q.fresh + 1 }, [.call q.fresh .NewSession none], .ok q.fresh)

/-- NewSender of the router: session, sender link, client, then `q.Senders[address] = &l`.
A session or link error is logged and returned; a client error ends in `log.Fatalf`. -/
def Router.NewSender (w : World) (q : Router) (address : String) :
    Router × List Action × Flow (Option String) :=
  match q.NewSession w with
  | (q1, t1, .error err) =>
    (q1, t1 ++ [.log "failed to create an amqp session for a sender : %v"], .ret (some err))
  | (q1, t1, .ok session) =>
    let c1 := Call.NewSenderProtocolFromClient session address
    let q2 := { q1 with fresh := q1.fresh + 1 }
    match w q1.fresh c1 with
    | some err =>
      (q2, t1 ++ [.call q1.fresh c1 (some err), .log "failed to create an amqp sender protocol: %v"],
        .ret (some err))
    | none =>
      let p : amqp1.Protocol :=
        { id := q1.fresh, role := .sender, server := none, session := some session,
          address := address, linkCredit := none }
      let c2 := Call.NewClient p.id
      let q3 := { q2 with fresh := q2.fresh + 1 }
      match w q2.fresh c2 with
      | some err =>
        (q3, t1 ++ [.call q1.fresh c1 none, .call q2.fresh c2 (some err),
          .fatal "failed to create an amqp sender client: %v"], .exit)
      | none =>
        let l : Protocol := { Protocol := some p, Client := some q2.fresh }
        ({ q3 with Senders := q3.Senders.insert address l },
          t1 ++ [.call q1.fresh c1 none, .call q2.fresh c2 none, .store .Senders address],
          .ret none)

/-- NewReceiver of the router: session, receiver link with the link credit, a cancellable
context, client, then `q.Listeners[address] = &l`.  A session or link error is logged and
returned; a client error ends in `log.Fatalf`. -/
def Router.NewReceiver (w : World) (q : Router) (address : String) :
    Router × List Action × Flow (Option String) :=
  match q.NewSession w with
  | (q1, t1, .error err) =>
    (q1, t1 ++ [.log "failed to create an amqp session for a sender : %v"], .ret (some err))
  | (q1, t1, .ok session) =>
    let c1 := Call.NewReceiverProtocolFromClient session address amqpLinkCredit
    let q2 := { q1 with fresh := q1.fresh + 1 }
    match w q1.fresh c1 with
    | some err =>
      (q2, t1 ++ [.call q1.fresh c1 (some err),
        .log "failed to create an amqp protocol for a receiver: %v"], .ret (some err))
    | none =>
      let p : amqp1.Protocol :=
        { id := q1.fresh, role := .receiver, server := none, session := some session,
          address := address, linkCredit := some amqpLinkCredit }
      let parent := q2.fresh
      let q3 := { q2 with fresh := q2.fresh + 1 }
      let c2 := Call.NewClient p.id
      let q4 := { q3 with fresh := q3.fresh + 1 }
      match w q3.fresh c2 with
      | some err =>
        (q4, t1 ++ [.call q1.fresh c1 none, .log "(new receiver) router connection established %s",
          .withCancel parent, .call q3.fresh c2 (some err),
          .fatal "failed to create a receiver client: %v"], .exit)
      | none =>
        let l : Protocol :=
          { CancelFn := some parent, ParentContext := some parent, Protocol := some p,
            Client := some q3.fresh }
        ({ q4 with Listeners := q4.Listeners.insert address l },
          t1 ++ [.call q1.fresh c1 none, .log "(new receiver) router connection established %s",
            .withCancel parent, .call q3.fresh c2 none, .store .Listeners address],
          .ret none)

/-- The callback that `QDRRouter` passes to `q.Receive` for the command `d`: the messages
it sends on `DataOut` for the received event `e`. -/
def receiveFn (d : DataChan) (e : cloudevents.Event) : List DataChan :=
  let out : DataChan :=
    { Address := d.Address, Data := some e, Status := .NEW, Type_ := .EVENT,
      ProcessEventFn := d.ProcessEventFn }
  match d.OnReceiveOverrideFn with
  | some fn =>
    match fn e with
    | some _ => [{ out with Status := .FAILED }]
    | none => [{ out with Status := .SUCCEED }]
  | none => [out]

/-- SendTo starts one send goroutine when the address has a sender, nothing otherwise. -/
def Router.SendTo (q : Router) (address : String) (event : Option cloudevents.Event) :
    List Action :=
  match q.Senders.lookup address with
  | some sender => [.go (.SendTo sender address event)]
  | none => []

/-- SendToAll starts one send goroutine per entry of `q.Senders`. -/
def Router.SendToAll (q : Router) (event : cloudevents.Event) : List Action :=
  q.Senders.entries.map fun ks => .go (.SendToAll ks.2 ks.1 event)

/-- Transport is `Client.Send`: the result of sending an event through a client within a
deadline given in seconds. -/
abbrev Transport := Nat → cloudevents.Event → Nat → cloudevents.Result

/-- The body of the goroutine of `SendTo`: `*event` and `sender.Client` are dereferenced,
the event is sent with the deadline `cancelTimeout`, and the result is classified. -/
def sendToBody (send : Transport) (sender : Protocol) (address : String)
    (e : Option cloudevents.Event) : Flow (List DataChan) :=
  match sender.Client, e with
  | some c, some ev =>
    let result := send c ev cancelTimeout
    if cloudevents.IsUndelivered result then
      .ret [{ Address := address, Data := e, Status := .FAILED, Type_ := .EVENT }]
    else if cloudevents.IsNACK result then
      .ret [{ Address := address, Data := e, Status := .SUCCEED, Type_ := .EVENT }]
    else .ret []
  | _, _ => .panic

/-- The body of the goroutine of `SendToAll`, with its deadline of one second. -/
def sendToAllBody (send : Transport) (s : Protocol) (address : String)
    (e : cloudevents.Event) : Flow (List DataChan) :=
  match s.Client with
  | some c =>
    let result := send c e 1
    if cloudevents.IsUndelivered result then
      .ret [{ Address := address, Data := some e, Status := .FAILED, Type_ := .EVENT }]
    else if cloudevents.IsNACK result then
      .ret [{ Address := address, Data := some e, Status := .SUCCEED, Type_ := .EVENT }]
    else .ret []
  | none => .panic

/-- The messages a send goroutine puts on `DataOut`; a subscription is not a send. -/
def Task.send (send : Transport) : Task → Flow (List DataChan)
  | .SendTo sender address e => sendToBody send sender address e
  | .SendToAll s address e => sendToAllBody send s address e
  | .Receive _ _ => .ret []

/-- The body of `case d := <-q.DataIn` of the dispatch loop. -/
def Router.dispatch (w : World) (q : Router) (d : DataChan) : Router × List Action × Flow Unit :=
  if d.Type_ = .LISTENER then
    if d.Status = .DELETE then
      match q.Listeners.lookup d.Address with
      | some listener =>
        match listener.CancelFn with
        | some h =>
          ({ q with Listeners := q.Listeners.erase d.Address },
            [.cancel h, .delete .Listeners d.Address, .log "listener deleted"], .ret ())
        | none => (q, [], .panic)
      | none => (q, [], .ret ())
    else
      match q.Listeners.lookup d.Address with
      | none =>
        let l1 := Action.log "(1)listener not found for the following address %s, creating listener"
        match q.NewReceiver w d.Address with
        | (q1, t, .ret (some _)) => (q1, l1 :: t ++ [.log "error creating Receiver %v"], .ret ())
        | (q1, t, .ret none) =>
          (q1, l1 :: t ++ [.go (.Receive d.Address (receiveFn d)),
            .log "done setting up receiver for consumer"], .ret ())
        | (q1, t, .exit) => (q1, l1 :: t, .exit)
        | (q1, t, .panic) => (q1, l1 :: t, .panic)
      | some _ => (q, [.log "(1)listener already found so not creating again %s"], .ret ())
  else if d.Type_ = .SENDER then
    if d.Status = .DELETE then
      match q.Senders.lookup d.Address with
      | some sender =>
        match sender.Protocol with
        | some p =>
          ({ q with Senders := q.Senders.erase d.Address },
            [.close p.id, .delete .Senders d.Address, .log "sender deleted"], .ret ())
        | none => (q, [], .panic)
      | none => (q, [], .ret ())
    else
      match q.Senders.lookup d.Address with
      | none =>
        let l1 :=
          Action.log "(1)sender not found for the following address, %s  will attempt to create"
        match q.NewSender w d.Address with
        | (q1, t, .ret (some _)) =>
          (q1, l1 :: t ++ [.log "(1)error creating sender %v for address %s"], .ret ())
        | (q1, t, .ret none) => (q1, l1 :: t, .ret ())
        | (q1, t, .exit) => (q1, l1 :: t, .exit)
        | (q1, t, .panic) => (q1, l1 :: t, .panic)
      | some _ => (q, [.log "(1)sender already found so not creating again %s"], .ret ())
  else if d.Type_ = .EVENT ∧ d.Status = .NEW then
    match q.Senders.lookup d.Address with
    | some _ => (q, q.SendTo d.Address d.Data, .ret ())
    | none =>
      (q, [.log "did not find sender for address %s, will not try to create.", .log "store %#v"],
        .ret ())
  else (q, [], .ret ())

/-- The first loop of `case <-q.Close`: over the entries of `q.Senders`, close the link and
delete the key.  The entries are visited in the order of the association list (Go leaves
the order of a map range open). -/
def Router.closeSenders : List (Sigma fun _ : String => Protocol) → Router →
    Router × List Action × Flow Unit
  | [], q => (q, [], .ret ())
  | ks :: rest, q =>
    match ks.2.Protocol with
    | some p =>
      match closeSenders rest { q with Senders := q.Senders.erase ks.1 } with
      | (q1, t, f) => (q1, .close p.id :: .delete .Senders ks.1 :: t, f)
    | none => (q, [], .panic)

/-- The second loop of `case <-q.Close`: over the entries of `q.Listeners`, call `CancelFn`
and delete the key. -/
def Router.cancelListeners : List (Sigma fun _ : String => Protocol) → Router →
    Router × List Action × Flow Unit
  | [], q => (q, [], .ret ())
  | kl :: rest, q =>
    match kl.2.CancelFn with
    | some h =>
      match cancelListeners rest { q with Listeners := q.Listeners.erase kl.1 } with
      | (q1, t, f) => (q1, .cancel h :: .delete .Listeners kl.1 :: t, f)
    | none => (q, [], .panic)

/-- The body of `case <-q.Close` up to its `return`. -/
def Router.shutdown (q : Router) : Router × List Action × Flow Unit :=
  match Router.closeSenders q.Senders.entries q with
  | (q1, t1, .ret ()) =>
    match Router.cancelListeners q1.Listeners.entries q1 with
    | (q2, t2, f) => (q2, .log "Received close order" :: t1 ++ t2, f)
  | (q1, t1, .exit) => (q1, .log "Received close order" :: t1, .exit)
  | (q1, t1, .panic) => (q1, .log "Received close order" :: t1, .panic)

/-- Select is the case the `select` of the dispatch loop takes: a command from `DataIn` or
the signal on `Close`. -/
inductive Select
  | DataIn (d : DataChan)
  | Close

/-- Loop is the state of the dispatch goroutine after the given inputs: blocked in `select`
waiting for the next one, returned after `Close`, or gone with the process. -/
inductive Loop
  | waiting
  | returned
  | exited
  | panicked
deriving DecidableEq, Repr

/-- QDRRouter is the goroutine of `QDRRouter`: the `for`/`select` loop run over the
sequence of cases it takes. -/
def Router.QDRRouter (w : World) : Router → List Select → Router × List Action × Loop
  | q, [] => (q, [], .waiting)
  | q, .DataIn d :: rest =>
    match q.dispatch w d with
    | (q1, t, .ret ()) =>
      match Router.QDRRouter w q1 rest with
      | (q2, t2, l) => (q2, t ++ t2, l)
    | (q1, t, .exit) => (q1, t, .exited)
    | (q1, t, .panic) => (q1, t, .panicked)
  | q, .Close :: _ =>
    match q.shutdown with
    | (q1, t, .ret ()) => (q1, t, .returned)
    | (q1, t, .exit) => (q1, t, .exited)
    | (q1, t, .panic) => (q1, t, .panicked)

/-- NewReceiver (stand-alone) dials `hostName:port` itself.  A link error returns the empty
`&Protocol{}` with the error; a client error ends in `log.Fatalf`.  The first component is
the handle counter after the call. -/
def NewReceiver (w : World) (n : Nat) (hostName : String) (port : Int) (receiverAddress : String) :
    Nat × List Action × Flow (Protocol × Option String) :=
  let server := hostName ++ ":" ++ toString port
  let c1 := Call.NewReceiverProtocol server receiverAddress amqpLinkCredit
  match w n c1 with
  | some err =>
    (n + 1, [.call n c1 (some err), .log "Failed to create amqp protocol for a Receiver: %v"],
      .ret ({}, some err))
  | none =>
    let p : amqp1.Protocol :=
      { id := n, role := .receiver, server := some server, session := none,
        address := receiverAddress, linkCredit := some amqpLinkCredit }
    let parent := n + 1
    let c2 := Call.NewClient p.id
    match w (n + 2) c2 with
    | some err =>
      (n + 3, [.call n c1 none, .log "(New Receiver) Connection established %s",
        .withCancel parent, .call (n + 2) c2 (some err), .fatal "Failed to create client: %v"],
        .exit)
    | none =>
      (n + 3, [.call n c1 none, .log "(New Receiver) Connection established %s",
        .withCancel parent, .call (n + 2) c2 none],
        .ret ({ CancelFn := some parent, ParentContext := some parent, Protocol := some p,
                Client := some (n + 2) }, none))

/-- NewSender (stand-alone) dials `hostName:port` itself; errors as in `NewReceiver`. -/
def NewSender (w : World) (n : Nat) (hostName : String) (port : Int) (address : String) :
    Nat × List Action × Flow (Protocol × Option String) :=
  let server := hostName ++ ":" ++ toString port
  let c1 := Call.NewSenderProtocol server address
  match w n c1 with
  | some err =>
    (n + 1, [.call n c1 (some err), .log "Failed to create amqp protocol: %v"],
      .ret ({}, some err))
  | none =>
    let p : amqp1.Protocol :=
      { id := n, role := .sender, server := some server, session := none,
        address := address, linkCredit := none }
    let c2 := Call.NewClient p.id
    match w (n + 1) c2 with
    | some err =>
      (n + 2, [.call n c1 none, .call (n + 1) c2 (some err), .fatal "Failed to create client: %v"],
        .exit)
    | none =>
      (n + 2, [.call n c1 none, .call (n + 1) c2 none],
        .ret ({ Protocol := some p, Client := some (n + 1) }, none))

/-- NewSenderReceiver returns `(sender, receiver, err)`: `sender, err = NewReceiver(hostName,
port, senderAddress)` and, when that gave no error, `receiver, err = NewSender(hostName,
port, receiverAddress)`; otherwise `receiver` stays `nil`. -/
def NewSenderReceiver (w : World) (n : Nat) (hostName : String) (port : Int)
    (senderAddress receiverAddress : String) :
    Nat × List Action × Flow (Option Protocol × Option Protocol × Option String) :=
  match NewReceiver w n hostName port senderAddress with
  | (n1, t1, .ret (sender, none)) =>
    match NewSender w n1 hostName port receiverAddress with
    | (n2, t2, .ret (receiver, err)) => (n2, t1 ++ t2, .ret (some sender, some receiver, err))
    | (n2, t2, .exit) => (n2, t1 ++ t2, .exit)
    | (n2, t2, .panic) => (n2, t1 ++ t2, .panic)
  | (n1, t1, .ret (sender, some err)) => (n1, t1, .ret (some sender, none, some err))
  | (n1, t1, .exit) => (n1, t1, .exit)
  | (n1, t1, .panic) => (n1, t1, .panic)

/-- Subscription is a running `StartReceiver`: the client and context it runs on and the
callback invoked for every received event. -/
structure Subscription where
  client : Nat
  ctx : Option Nat
  fn : cloudevents.Event → List DataChan

/-- Receive is the subscription goroutine: it looks the listener up and starts the receiver
on its client with the callback, or logs that there is no such listener. -/
def Router.Receive (q : Router) (address : String) (fn : cloudevents.Event → List DataChan) :
    List Action × Flow (Option Subscription) :=
  match q.Listeners.lookup address with
  | some val =>
    match val.Client with
    | some c =>
      ([.log "waiting and listening at  %s"],
        .ret (some { client := c, ctx := val.ParentContext, fn := fn }))
    | none => ([.log "waiting and listening at  %s"], .panic)
  | none => ([.log "amqp receiver not found in the list"], .ret none)

/-- The goroutine started by an action, if it is a `go` statement. -/
def Action.task : Action → Option Task
  | .go t => some t
  | _ => none

/-- The message an action sends on `DataOut`, if it is such a send. -/
def Action.result : Action → Option DataChan
  | .out d => some d
  | _ => none

/-- The library call an action makes, if it is one. -/
def Action.libCall : Action → Option Call
  | .call _ c _ => some c
  | _ => none

/-- The cancel handle an action invokes, if it is a `CancelFn()`. -/
def Action.cancelled : Action → Option Nat
  | .cancel h => some h
  | _ => none

/-- The link an action closes, if it is a `Protocol.Close`. -/
def Action.closed : Action → Option Nat
  | .close p => some p
  | _ => none

/-- The goroutines a trace starts, in order. -/
def tasks (t : List Action) : List Task := t.filterMap Action.task

/-- The messages a trace sends on `DataOut`, in order. -/
def results (t : List Action) : List DataChan := t.filterMap Action.result

/-- The library calls (sessions, links, clients) a trace makes, in order. -/
def libCalls (t : List Action) : List Call := t.filterMap Action.libCall

/-- The cancel handles a trace invokes, in order. -/
def cancels (t : List Action) : List Nat := t.filterMap Action.cancelled

/-- The links a trace closes, in order. -/
def closes (t : List Action) : List Nat := t.filterMap Action.closed

/-- Whether an action is `delete(q.Listeners, key)`. -/
def Action.isListenerDelete : Action → Bool
  | .delete .Listeners _ => true
  | _ => false

/-- Whether an action is a call of a `CancelFn`. -/
def Action.isCancel : Action → Bool
  | .cancel _ => true
  | _ => false

/-- Whether every `delete(q.Listeners, key)` of a trace comes directly after a call of a
`CancelFn`; `prev` says whether the action before the trace was such a call. -/
def cancelledBeforeDelete (prev : Bool) : List Action → Bool
  | [] => true
  | a :: t => (!a.isListenerDelete || prev) && cancelledBeforeDelete a.isCancel t

/-- The link identities held by the senders of the router. -/
def Router.senderLinks (q : Router) : List (Option Nat) :=
  q.Senders.entries.map fun ks => ks.2.Protocol.map fun p => p.id

/-- The cancel handles held by the listeners of the router. -/
def Router.listenerCancels (q : Router) : List (Option Nat) :=
  q.Listeners.entries.map fun kl => kl.2.CancelFn

/-- WF is what every endpoint stored by `NewSender` and `NewReceiver` satisfies: a sender
has its link, a listener has its `CancelFn`, and no two entries of a map share one (each
entry is its own `&l`). -/
def Router.WF (q : Router) : Prop :=
  (∀ o ∈ q.senderLinks, o ≠ none) ∧ (∀ o ∈ q.listenerCancels, o ≠ none) ∧
    q.senderLinks.Nodup ∧ q.listenerCancels.Nodup

instance (q : Router) : Decidable q.WF := by
  unfold Router.WF
  infer_instance

/-- A world in which no library call fails. -/
def allOk : World := fun _ _ => none

/-- A world in which only the creation of a cloudevents client fails. -/
def clientFails : World := fun _ c =>
  match c with
  | .NewClient _ => some "client"
  | _ => none

/-- A world in which only the opening of a session fails. -/
def sessionFails : World := fun _ c =>
  match c with
  | .NewSession => some "session"
  | _ => none

/-- A router with empty maps, as `InitServer` returns it. -/
def emptyRouter : Router :=
  { Listeners := ∅, Senders := ∅, Host := "amqp://localhost:5672", Client := some 0, fresh := 1 }

/-- Whether a handle is present and was handed out before the counter reached `n`. -/
def below (n : Nat) : Option Nat → Bool
  | some k => decide (k < n)
  | none => false

/-- Good handles: all present, all handed out before `n`, no two equal. -/
def Good (xs : List (Option Nat)) (n : Nat) : Prop :=
  (∀ o ∈ xs, below n o = true) ∧ xs.Nodup

/-- Inv is the invariant of the router under the dispatch loop: the links of the senders
and the cancel handles of the listeners are good for the handle counter. -/
def Router.Inv (q : Router) : Prop :=
  Good q.senderLinks q.fresh ∧ Good q.listenerCancels q.fresh

end amqp

namespace amqp

open channel (DataChan)

/-! ## The endpoint constructors of the router, outcome by outcome -/

theorem NewSender_session_err (w : World) (q : Router) (a err : String)
    (hs : w q.fresh .NewSession = some err) :
    q.NewSender w a =
      ({ q with fresh := q.fresh + 1 },
        [.call q.fresh .NewSession (some err),
          .log "failed to create an amqp session for a sender : %v"], .ret (some err)) := by
  simp [Router.NewSender, Router.NewSession, hs]

theorem NewSender_link_err (w : World) (q : Router) (a err : String)
    (hs : w q.fresh .NewSession = none)
    (hl : w (q.fresh + 1) (.NewSenderProtocolFromClient q.fresh a) = some err) :
    q.NewSender w a =
      ({ q with fresh := q.fresh + 2 },
        [.call q.fresh .NewSession none,
          .call (q.fresh + 1) (.NewSenderProtocolFromClient q.fresh a) (some err),
          .log "failed to create an amqp sender protocol: %v"], .ret (some err)) := by
  simp [Router.NewSender, Router.NewSession, hs, hl]

theorem NewSender_client_err (w : World) (q : Router) (a err : String)
    (hs : w q.fresh .NewSession = none)
    (hl : w (q.fresh + 1) (.NewSenderProtocolFromClient q.fresh a) = none)
    (hc : w (q.fresh + 2) (.NewClient (q.fresh + 1)) = some err) :
    q.NewSender w a =
      ({ q with fresh := q.fresh + 3 },
        [.call q.fresh .NewSession none,
          .call (q.fresh + 1) (.NewSenderProtocolFromClient q.fresh a) none,
          .call (q.fresh + 2) (.NewClient (q.fresh + 1)) (some err),
          .fatal "failed to create an amqp sender client: %v"], .exit) := by
  have hc' : w (q.fresh + 1 + 1) (.NewClient (q.fresh + 1)) = some err := hc
  simp [Router.NewSender, Router.NewSession, hs, hl, hc']

theorem NewSender_ok (w : World) (q : Router) (a : String)
    (hs : w q.fresh .NewSession = none)
    (hl : w (q.fresh + 1) (.NewSenderProtocolFromClient q.fresh a) = none)
    (hc : w (q.fresh + 2) (.NewClient (q.fresh + 1)) = none) :
    q.NewSender w a =
      ({ q with
          fresh := q.fresh + 3,
          Senders := q.Senders.insert a
            { Client := some (q.fresh + 2),
              Protocol := some ⟨q.fresh + 1, .sender, none, some q.fresh, a, none⟩ } },
        [.call q.fresh .NewSession none,
          .call (q.fresh + 1) (.NewSenderProtocolFromClient q.fresh a) none,
          .call (q.fresh + 2) (.NewClient (q.fresh + 1)) none, .store .Senders a],
        .ret none) := by
  have hc' : w (q.fresh + 1 + 1) (.NewClient (q.fresh + 1)) = none := hc
  simp [Router.NewSender, Router.NewSession, hs, hl, hc']

theorem NewReceiver_session_err (w : World) (q : Router) (a err : String)
    (hs : w q.fresh .NewSession = some err) :
    q.NewReceiver w a =
      ({ q with fresh := q.fresh + 1 },
        [.call q.fresh .NewSession (some err),
          .log "failed to create an amqp session for a sender : %v"], .ret (some err)) := by
  simp [Router.NewReceiver, Router.NewSession, hs]

theorem NewReceiver_link_err (w : World) (q : Router) (a err : String)
    (hs : w q.fresh .NewSession = none)
    (hl : w (q.fresh + 1) (.NewReceiverProtocolFromClient q.fresh a amqpLinkCredit) = some err) :
    q.NewReceiver w a =
      ({ q with fresh := q.fresh + 2 },
        [.call q.fresh .NewSession none,
          .call (q.fresh + 1) (.NewReceiverProtocolFromClient q.fresh a amqpLinkCredit) (some err),
          .log "failed to create an amqp protocol for a receiver: %v"], .ret (some err)) := by
  simp [Router.NewReceiver, Router.NewSession, hs, hl]

theorem NewReceiver_client_err (w : World) (q : Router) (a err : String)
    (hs : w q.fresh .NewSession = none)
    (hl : w (q.fresh + 1) (.NewReceiverProtocolFromClient q.fresh a amqpLinkCredit) = none)
    (hc : w (q.fresh + 3) (.NewClient (q.fresh + 1)) = some err) :
    q.NewReceiver w a =
      ({ q with fresh := q.fresh + 4 },
        [.call q.fresh .NewSession none,
          .call (q.fresh + 1) (.NewReceiverProtocolFromClient q.fresh a amqpLinkCredit) none,
          .log "(new receiver) router connection established %s",
          .withCancel (q.fresh + 2),
          .call (q.fresh + 3) (.NewClient (q.fresh + 1)) (some err),
          .fatal "failed to create a receiver client: %v"], .exit) := by
  have hc' : w (q.fresh + 1 + 1 + 1) (.NewClient (q.fresh + 1)) = some err := hc
  simp [Router.NewReceiver, Router.NewSession, hs, hl, hc']

theorem NewReceiver_ok (w : World) (q : Router) (a : String)
    (hs : w q.fresh .NewSession = none)
    (hl : w (q.fresh + 1) (.NewReceiverProtocolFromClient q.fresh a amqpLinkCredit) = none)
    (hc : w (q.fresh + 3) (.NewClient (q.fresh + 1)) = none) :
    q.NewReceiver w a =
      ({ q with
          fresh := q.fresh + 4,
          Listeners := q.Listeners.insert a
            { CancelFn := some (q.fresh + 2), ParentContext := some (q.fresh + 2),
              Client := some (q.fresh + 3),
              Protocol :=
                some ⟨q.fresh + 1, .receiver, none, some q.fresh, a, some amqpLinkCredit⟩ } },
        [.call q.fresh .NewSession none,
          .call (q.fresh + 1) (.NewReceiverProtocolFromClient q.fresh a amqpLinkCredit) none,
          .log "(new receiver) router connection established %s",
          .withCancel (q.fresh + 2),
          .call (q.fresh + 3) (.NewClient (q.fresh + 1)) none, .store .Listeners a],
        .ret none) := by
  have hc' : w (q.fresh + 1 + 1 + 1) (.NewClient (q.fresh + 1)) = none := hc
  simp [Router.NewReceiver, Router.NewSession, hs, hl, hc']

/-! ## Traces in which every listener deletion follows a cancellation -/

theorem cancelledBeforeDelete_mono (t : List Action) (p : Bool)
    (h : cancelledBeforeDelete false t = true) : cancelledBeforeDelete p t = true := by
  cases t with
  | nil => rfl
  | cons a t =>
    simp only [cancelledBeforeDelete, Bool.and_eq_true, Bool.or_eq_true] at h ⊢
    exact ⟨h.1.imp id (fun hf => by cases hf), h.2⟩

theorem cancelledBeforeDelete_append (t1 t2 : List Action) (p : Bool)
    (h1 : cancelledBeforeDelete p t1 = true) (h2 : cancelledBeforeDelete false t2 = true) :
    cancelledBeforeDelete p (t1 ++ t2) = true := by
  induction t1 generalizing p with
  | nil => exact cancelledBeforeDelete_mono t2 p h2
  | cons a t ih =>
    simp only [List.cons_append, cancelledBeforeDelete, Bool.and_eq_true] at h1 ⊢
    exact ⟨h1.1, ih _ h1.2⟩

theorem NewReceiver_cancelledBeforeDelete (w : World) (q : Router) (a : String) (p : Bool) :
    cancelledBeforeDelete p (q.NewReceiver w a).2.1 = true := by
  unfold Router.NewReceiver Router.NewSession
  cases h1 : w q.fresh .NewSession <;>
    simp [cancelledBeforeDelete, Action.isListenerDelete, Action.isCancel]
  cases h2 : w (q.fresh + 1) (.NewReceiverProtocolFromClient q.fresh a amqpLinkCredit) <;>
    simp [cancelledBeforeDelete, Action.isListenerDelete, Action.isCancel]
  cases h3 : w (q.fresh + 1 + 1 + 1) (.NewClient (q.fresh + 1)) <;>
    simp [cancelledBeforeDelete, Action.isListenerDelete, Action.isCancel]

theorem NewSender_cancelledBeforeDelete (w : World) (q : Router) (a : String) (p : Bool) :
    cancelledBeforeDelete p (q.NewSender w a).2.1 = true := by
  unfold Router.NewSender Router.NewSession
  cases h1 : w q.fresh .NewSession <;>
    simp [cancelledBeforeDelete, Action.isListenerDelete, Action.isCancel]
  cases h2 : w (q.fresh + 1) (.NewSenderProtocolFromClient q.fresh a) <;>
    simp [cancelledBeforeDelete, Action.isListenerDelete, Action.isCancel]
  cases h3 : w (q.fresh + 1 + 1) (.NewClient (q.fresh + 1)) <;>
    simp [cancelledBeforeDelete, Action.isListenerDelete, Action.isCancel]

theorem NewReceiver_no_panic (w : World) (q : Router) (a : String) :
    (q.NewReceiver w a).2.2 ≠ .panic := by
  unfold Router.NewReceiver Router.NewSession
  cases h1 : w q.fresh .NewSession <;> simp
  cases h2 : w (q.fresh + 1) (.NewReceiverProtocolFromClient q.fresh a amqpLinkCredit) <;> simp
  cases h3 : w (q.fresh + 1 + 1 + 1) (.NewClient (q.fresh + 1)) <;> simp

theorem NewSender_no_panic (w : World) (q : Router) (a : String) :
    (q.NewSender w a).2.2 ≠ .panic := by
  unfold Router.NewSender Router.NewSession
  cases h1 : w q.fresh .NewSession <;> simp
  cases h2 : w (q.fresh + 1) (.NewSenderProtocolFromClient q.fresh a) <;> simp
  cases h3 : w (q.fresh + 1 + 1) (.NewClient (q.fresh + 1)) <;> simp

theorem dispatch_cancelledBeforeDelete (w : World) (q : Router) (d : DataChan) :
    cancelledBeforeDelete false (q.dispatch w d).2.1 = true := by
  unfold Router.dispatch
  split
  · split
    · split
      · split <;> simp [cancelledBeforeDelete, Action.isListenerDelete, Action.isCancel]
      · rfl
    · split
      · have hN := NewReceiver_cancelledBeforeDelete w q d.Address false
        split <;> rename_i heq <;> rw [heq] at hN <;> simp only at hN ⊢ <;>
          simp only [cancelledBeforeDelete, Action.isListenerDelete, Action.isCancel,
            Bool.not_false, Bool.true_or, Bool.true_and]
        · exact cancelledBeforeDelete_append _ _ _ hN rfl
        · exact cancelledBeforeDelete_append _ _ _ hN rfl
        · exact hN
        · exact hN
      · rfl
  · split
    · split
      · split
        · split <;> simp [cancelledBeforeDelete, Action.isListenerDelete, Action.isCancel]
        · rfl
      · split
        · have hN := NewSender_cancelledBeforeDelete w q d.Address false
          split <;> rename_i heq <;> rw [heq] at hN <;> simp only at hN ⊢ <;>
            simp only [cancelledBeforeDelete, Action.isListenerDelete, Action.isCancel,
              Bool.not_false, Bool.true_or, Bool.true_and]
          · exact cancelledBeforeDelete_append _ _ _ hN rfl
          · exact hN
          · exact hN
          · exact hN
        · rfl
    · split
      · split
        · rename_i sender hl
          simp [Router.SendTo, hl, cancelledBeforeDelete, Action.isListenerDelete]
        · rfl
      · rfl

theorem closeSenders_cancelledBeforeDelete (l : List (Sigma fun _ : String => Protocol))
    (q : Router) (p : Bool) : cancelledBeforeDelete p (Router.closeSenders l q).2.1 = true := by
  induction l generalizing q p with
  | nil => rfl
  | cons ks rest ih =>
    unfold Router.closeSenders
    cases hp : ks.2.Protocol with
    | none => rfl
    | some pr =>
      simp only [cancelledBeforeDelete, Action.isListenerDelete, Action.isCancel,
        Bool.not_false, Bool.true_or, Bool.true_and]
      exact ih _ _

theorem cancelListeners_cancelledBeforeDelete (l : List (Sigma fun _ : String => Protocol))
    (q : Router) (p : Bool) :
    cancelledBeforeDelete p (Router.cancelListeners l q).2.1 = true := by
  induction l generalizing q p with
  | nil => rfl
  | cons kl rest ih =>
    unfold Router.cancelListeners
    cases hp : kl.2.CancelFn with
    | none => rfl
    | some h =>
      simp only [cancelledBeforeDelete, Action.isListenerDelete, Action.isCancel,
        Bool.not_false, Bool.true_or, Bool.true_and, Bool.not_true, Bool.false_or]
      exact ih _ _

theorem shutdown_cancelledBeforeDelete (q : Router) :
    cancelledBeforeDelete false q.shutdown.2.1 = true := by
  unfold Router.shutdown
  have h1 := closeSenders_cancelledBeforeDelete q.Senders.entries q false
  split <;> rename_i heq <;> rw [heq] at h1 <;> simp only at h1 ⊢ <;>
    simp only [cancelledBeforeDelete, Action.isListenerDelete, Action.isCancel,
      Bool.not_false, Bool.true_or, Bool.true_and]
  · exact cancelledBeforeDelete_append _ _ _ h1 (cancelListeners_cancelledBeforeDelete _ _ _)
  · exact h1
  · exact h1

theorem QDRRouter_cancelledBeforeDelete (w : World) (q : Router) (inputs : List Select) :
    cancelledBeforeDelete false (q.QDRRouter w inputs).2.1 = true := by
  induction inputs generalizing q with
  | nil => rfl
  | cons i rest ih =>
    cases i with
    | DataIn d =>
      unfold Router.QDRRouter
      have hd := dispatch_cancelledBeforeDelete w q d
      split <;> rename_i heq <;> rw [heq] at hd <;> simp only at hd ⊢
      · exact cancelledBeforeDelete_append _ _ _ hd (ih _)
      · exact hd
      · exact hd
    | Close =>
      unfold Router.QDRRouter
      have hd := shutdown_cancelledBeforeDelete q
      split <;> rename_i heq <;> rw [heq] at hd <;> exact hd

/-! ## The two loops of the shutdown -/

theorem keys_nil_eq_empty (m : AList (fun _ : String => Protocol)) (h : m.keys = []) :
    m = ∅ := by
  apply AList.ext
  have : m.entries.map Sigma.fst = [] := h
  simpa using this

theorem closeSenders_spec (l : List (Sigma fun _ : String => Protocol)) (q : Router)
    (hsome : ∀ ks ∈ l, ks.2.Protocol ≠ none) (hkeys : q.Senders.keys = l.map Sigma.fst) :
    (Router.closeSenders l q).2.2 = .ret () ∧
      (Router.closeSenders l q).1.Senders = ∅ ∧
      (Router.closeSenders l q).1.Listeners = q.Listeners ∧
      (closes (Router.closeSenders l q).2.1).map some
        = l.map (fun ks => ks.2.Protocol.map fun p => p.id) ∧
      cancels (Router.closeSenders l q).2.1 = [] ∧
      results (Router.closeSenders l q).2.1 = [] ∧
      tasks (Router.closeSenders l q).2.1 = [] := by
  induction l generalizing q with
  | nil =>
    exact ⟨rfl, keys_nil_eq_empty _ hkeys, rfl, rfl, rfl, rfl, rfl⟩
  | cons ks rest ih =>
    unfold Router.closeSenders
    cases hp : ks.2.Protocol with
    | none => exact absurd hp (hsome ks (List.mem_cons_self _ _))
    | some p =>
      have hk : ({ q with Senders := q.Senders.erase ks.1 } : Router).Senders.keys
          = rest.map Sigma.fst := by
        simp [AList.keys_erase, hkeys]
      obtain ⟨h1, h2, h3, h4, h5, h6, h7⟩ :=
        ih { q with Senders := q.Senders.erase ks.1 }
          (fun x hx => hsome x (List.mem_cons_of_mem _ hx)) hk
      refine ⟨h1, h2, h3, ?_, ?_, ?_, ?_⟩
      · simpa [closes, Action.closed, hp] using h4
      · simpa [cancels, Action.cancelled] using h5
      · simpa [results, Action.result] using h6
      · simpa [tasks, Action.task] using h7

theorem cancelListeners_spec (l : List (Sigma fun _ : String => Protocol)) (q : Router)
    (hsome : ∀ kl ∈ l, kl.2.CancelFn ≠ none) (hkeys : q.Listeners.keys = l.map Sigma.fst) :
    (Router.cancelListeners l q).2.2 = .ret () ∧
      (Router.cancelListeners l q).1.Listeners = ∅ ∧
      (Router.cancelListeners l q).1.Senders = q.Senders ∧
      (cancels (Router.cancelListeners l q).2.1).map some = l.map (fun kl => kl.2.CancelFn) ∧
      closes (Router.cancelListeners l q).2.1 = [] ∧
      results (Router.cancelListeners l q).2.1 = [] ∧
      tasks (Router.cancelListeners l q).2.1 = [] := by
  induction l generalizing q with
  | nil =>
    exact ⟨rfl, keys_nil_eq_empty _ hkeys, rfl, rfl, rfl, rfl, rfl⟩
  | cons kl rest ih =>
    unfold Router.cancelListeners
    cases hp : kl.2.CancelFn with
    | none => exact absurd hp (hsome kl (List.mem_cons_self _ _))
    | some h =>
      have hk : ({ q with Listeners := q.Listeners.erase kl.1 } : Router).Listeners.keys
          = rest.map Sigma.fst := by
        simp [AList.keys_erase, hkeys]
      obtain ⟨h1, h2, h3, h4, h5, h6, h7⟩ :=
        ih { q with Listeners := q.Listeners.erase kl.1 }
          (fun x hx => hsome x (List.mem_cons_of_mem _ hx)) hk
      refine ⟨h1, h2, h3, ?_, ?_, ?_, ?_⟩
      · simpa [cancels, Action.cancelled, hp] using h4
      · simpa [closes, Action.closed] using h5
      · simpa [results, Action.result] using h6
      · simpa [tasks, Action.task] using h7

theorem shutdown_spec (q : Router) (hwf : q.WF) :
    q.shutdown.2.2 = .ret () ∧ q.shutdown.1.Senders = ∅ ∧ q.shutdown.1.Listeners = ∅ ∧
      (closes q.shutdown.2.1).map some = q.senderLinks ∧
      (cancels q.shutdown.2.1).map some = q.listenerCancels ∧
      results q.shutdown.2.1 = [] ∧ tasks q.shutdown.2.1 = [] := by
  obtain ⟨hs, hl, _, _⟩ := hwf
  have hS := closeSenders_spec q.Senders.entries q
    (fun ks hks hn => hs _ (List.mem_map_of_mem _ hks) (by rw [hn]; rfl)) rfl
  obtain ⟨a1, a2, a3, a4, a5, a6, a7⟩ := hS
  have hL := cancelListeners_spec (Router.closeSenders q.Senders.entries q).1.Listeners.entries
    (Router.closeSenders q.Senders.entries q).1
    (by
      rw [a3]
      exact fun kl hkl => hl _ (List.mem_map_of_mem _ hkl)) rfl
  obtain ⟨b1, b2, b3, b4, b5, b6, b7⟩ := hL
  unfold Router.shutdown
  generalize hcs : Router.closeSenders q.Senders.entries q = cs at *
  obtain ⟨q1, t1, f1⟩ := cs
  simp only at a1 a2 a3 a4 a5 a6 a7 b1 b2 b3 b4 b5 b6 b7
  subst a1
  simp only
  generalize hcl : Router.cancelListeners q1.Listeners.entries q1 = cl at *
  obtain ⟨q2, t2, f2⟩ := cl
  simp only at b1 b2 b3 b4 b5 b6 b7 ⊢
  refine ⟨b1, ?_, b2, ?_, ?_, ?_, ?_⟩
  · rw [b3, a2]
  · simp only [closes, List.filterMap_cons, Action.closed, List.filterMap_append] at a4 b5 ⊢
    rw [b5, List.append_nil, a4]
    rfl
  · simp only [cancels, List.filterMap_cons, Action.cancelled, List.filterMap_append] at a5 b4 ⊢
    rw [a5, List.nil_append, b4, a3]
    rfl
  · simp only [results, List.filterMap_cons, Action.result, List.filterMap_append] at a6 b6 ⊢
    rw [a6, b6]
    rfl
  · simp only [tasks, List.filterMap_cons, Action.task, List.filterMap_append] at a7 b7 ⊢
    rw [a7, b7]
    rfl

theorem count_eq_one_of_map_some (xs : List Nat) (ys : List (Option Nat)) (n : Nat)
    (h : xs.map some = ys) (hn : ys.Nodup) (hm : some n ∈ ys) : xs.count n = 1 := by
  subst h
  have hx : xs.Nodup := List.Nodup.of_map _ hn
  have hmem : n ∈ xs := by
    rcases List.mem_map.mp hm with ⟨k, hk, hk2⟩
    cases hk2
    exact hk
  exact List.count_eq_one_of_mem hx hmem

/-! ## Well-formedness is an invariant of the dispatch loop -/

theorem below_mono {n m : Nat} (h : n ≤ m) (o : Option Nat) (ho : below n o = true) :
    below m o = true := by
  cases o with
  | none => exact ho
  | some k =>
    simp only [below, decide_eq_true_eq] at ho ⊢
    omega

theorem Good_mono {xs : List (Option Nat)} {n m : Nat} (h : n ≤ m) (hg : Good xs n) :
    Good xs m :=
  ⟨fun o ho => below_mono h o (hg.1 o ho), hg.2⟩

theorem Good_sublist {xs ys : List (Option Nat)} {n : Nat} (hs : ys.Sublist xs)
    (hg : Good xs n) : Good ys n :=
  ⟨fun o ho => hg.1 o (hs.subset ho), hg.2.sublist hs⟩

theorem Good_cons {xs : List (Option Nat)} {n k m : Nat} (hg : Good xs n) (hk : n ≤ k)
    (hm : k < m) : Good (some k :: xs) m := by
  refine ⟨?_, ?_⟩
  · intro o ho
    rcases List.mem_cons.mp ho with rfl | ho
    · simp [below, hm]
    · exact below_mono (by omega) o (hg.1 o ho)
  · refine List.nodup_cons.mpr ⟨?_, hg.2⟩
    intro hmem
    have := hg.1 _ hmem
    simp only [below, decide_eq_true_eq] at this
    omega

theorem Inv_WF {q : Router} (h : q.Inv) : q.WF := by
  refine ⟨?_, ?_, h.1.2, h.2.2⟩
  · intro o ho hn
    have := h.1.1 o ho
    rw [hn] at this
    cases this
  · intro o ho hn
    have := h.2.1 o ho
    rw [hn] at this
    cases this

theorem map_erase_sublist (f : Protocol → Option Nat) (a : String)
    (m : AList (fun _ : String => Protocol)) :
    ((m.erase a).entries.map fun ks => f ks.2).Sublist (m.entries.map fun ks => f ks.2) := by
  have h : (m.erase a).entries = m.entries.kerase a := rfl
  rw [h]
  exact (List.kerase_sublist a m.entries).map _

theorem map_insert_absent (f : Protocol → Option Nat) (a : String) (l : Protocol)
    (m : AList (fun _ : String => Protocol)) (h : m.lookup a = none) :
    ((m.insert a l).entries.map fun ks => f ks.2) = f l :: m.entries.map fun ks => f ks.2 := by
  rw [AList.insert_entries_of_neg (AList.lookup_eq_none.mp h)]
  rfl

theorem NewSender_Inv (w : World) (q : Router) (a : String) (hA : q.Senders.lookup a = none)
    (h : q.Inv) : (q.NewSender w a).1.Inv := by
  cases hs : w q.fresh .NewSession with
  | some err =>
    rw [NewSender_session_err w q a err hs]
    exact ⟨Good_mono (Nat.le_succ _) h.1, Good_mono (Nat.le_succ _) h.2⟩
  | none =>
    cases hl : w (q.fresh + 1) (.NewSenderProtocolFromClient q.fresh a) with
    | some err =>
      rw [NewSender_link_err w q a err hs hl]
      exact ⟨Good_mono (by simp) h.1, Good_mono (by simp) h.2⟩
    | none =>
      cases hc : w (q.fresh + 2) (.NewClient (q.fresh + 1)) with
      | some err =>
        rw [NewSender_client_err w q a err hs hl hc]
        exact ⟨Good_mono (by simp) h.1, Good_mono (by simp) h.2⟩
      | none =>
        rw [NewSender_ok w q a hs hl hc]
        refine ⟨?_, Good_mono (by simp) h.2⟩
        simp only [Router.senderLinks]
        rw [map_insert_absent (fun s => s.Protocol.map fun p => p.id) a _ _ hA]
        exact Good_cons h.1 (Nat.le_succ _) (by simp)

theorem NewReceiver_Inv (w : World) (q : Router) (a : String)
    (hA : q.Listeners.lookup a = none) (h : q.Inv) : (q.NewReceiver w a).1.Inv := by
  cases hs : w q.fresh .NewSession with
  | some err =>
    rw [NewReceiver_session_err w q a err hs]
    exact ⟨Good_mono (Nat.le_succ _) h.1, Good_mono (Nat.le_succ _) h.2⟩
  | none =>
    cases hl : w (q.fresh + 1) (.NewReceiverProtocolFromClient q.fresh a amqpLinkCredit) with
    | some err =>
      rw [NewReceiver_link_err w q a err hs hl]
      exact ⟨Good_mono (by simp) h.1, Good_mono (by simp) h.2⟩
    | none =>
      cases hc : w (q.fresh + 3) (.NewClient (q.fresh + 1)) with
      | some err =>
        rw [NewReceiver_client_err w q a err hs hl hc]
        exact ⟨Good_mono (by simp) h.1, Good_mono (by simp) h.2⟩
      | none =>
        rw [NewReceiver_ok w q a hs hl hc]
        refine ⟨Good_mono (by simp) h.1, ?_⟩
        simp only [Router.listenerCancels]
        rw [map_insert_absent (fun s => s.CancelFn) a _ _ hA]
        exact Good_cons h.2 (by omega) (by simp)

theorem dispatch_Inv (w : World) (q : Router) (d : DataChan) (h : q.Inv) :
    (q.dispatch w d).1.Inv := by
  unfold Router.dispatch
  split
  · split
    · split
      · split
        · exact ⟨h.1, Good_sublist (map_erase_sublist (fun s : Protocol => s.CancelFn)
            d.Address q.Listeners) h.2⟩
        · exact h
      · exact h
    · split
      · rename_i hA
        have hN := NewReceiver_Inv w q d.Address hA h
        split <;> rename_i heq <;> rw [heq] at hN <;> exact hN
      · exact h
  · split
    · split
      · split
        · split
          · exact ⟨Good_sublist (map_erase_sublist
              (fun s : Protocol => s.Protocol.map fun p : amqp1.Protocol => p.id)
              d.Address q.Senders) h.1, h.2⟩
          · exact h
        · exact h
      · split
        · rename_i hA
          have hN := NewSender_Inv w q d.Address hA h
          split <;> rename_i heq <;> rw [heq] at hN <;> exact hN
        · exact h
    · split
      · split <;> exact h
      · exact h

theorem dispatch_no_panic (w : World) (q : Router) (d : DataChan) (h : q.WF) :
    (q.dispatch w d).2.2 ≠ .panic := by
  unfold Router.dispatch
  split
  · split
    · split
      · rename_i listener hl
        split
        · simp
        · rename_i hn
          exfalso
          have hmem := (AList.mem_lookup_iff).mp hl
          exact h.2.1 _ (List.mem_map_of_mem (fun kl : (Sigma fun _ : String => Protocol) =>
            kl.2.CancelFn) hmem) hn
      · simp
    · split
      · have hN := NewReceiver_no_panic w q d.Address
        split <;> rename_i heq <;> rw [heq] at hN <;> simp at hN ⊢
      · simp
  · split
    · split
      · split
        · rename_i sender hl
          split
          · simp
          · rename_i hn
            exfalso
            have hmem := (AList.mem_lookup_iff).mp hl
            refine h.1 _ (List.mem_map_of_mem (fun ks : (Sigma fun _ : String => Protocol) =>
              ks.2.Protocol.map fun p => p.id) hmem) ?_
            simp [hn]
        · simp
      · split
        · have hN := NewSender_no_panic w q d.Address
          split <;> rename_i heq <;> rw [heq] at hN <;> simp at hN ⊢
        · simp
    · split
      · split <;> simp
      · simp

theorem QDRRouter_Inv (w : World) (q : Router) (inputs : List Select) (h : q.Inv) :
    (q.QDRRouter w inputs).1.Inv ∧ (q.QDRRouter w inputs).2.2 ≠ .panicked := by
  induction inputs generalizing q with
  | nil => exact ⟨h, by simp [Router.QDRRouter]⟩
  | cons i rest ih =>
    cases i with
    | DataIn d =>
      unfold Router.QDRRouter
      have hd := dispatch_Inv w q d h
      have hp := dispatch_no_panic w q d (Inv_WF h)
      split <;> rename_i heq <;> rw [heq] at hd hp
      · exact ih _ hd
      · exact ⟨hd, by simp⟩
      · exact absurd rfl hp
    | Close =>
      obtain ⟨h1, h2, h3, _⟩ := shutdown_spec q (Inv_WF h)
      unfold Router.QDRRouter
      generalize q.shutdown = sd at *
      obtain ⟨q1, t1, f1⟩ := sd
      simp only at h1 h2 h3
      subst h1
      simp only
      refine ⟨⟨⟨?_, ?_⟩, ⟨?_, ?_⟩⟩, by simp⟩ <;>
        simp [Router.senderLinks, Router.listenerCancels, h2, h3]

/-- Every router that `InitServer` returns, and every router the dispatch loop turns it
into, is well formed, and the loop never panics on it. -/
theorem reachable_WF (w : World) (n : Nat) (amqpHost : String) (q0 : Router)
    (h0 : (InitServer w n amqpHost).2 = .ok q0) (inputs : List Select) :
    (q0.QDRRouter w inputs).1.WF ∧ (q0.QDRRouter w inputs).2.2 ≠ .panicked := by
  have hq : q0.Inv := by
    unfold InitServer at h0
    cases hd : w n (.Dial amqpHost) with
    | some err => simp [hd] at h0
    | none =>
      simp [hd] at h0
      subst h0
      refine ⟨⟨?_, ?_⟩, ⟨?_, ?_⟩⟩ <;> simp [Router.senderLinks, Router.listenerCancels]
  exact ⟨Inv_WF (QDRRouter_Inv w q0 inputs hq).1, (QDRRouter_Inv w q0 inputs hq).2⟩

/-! ## C1: the receive callback of a listener -/

/-- C1 fails as stated: for a listener created without an `OnReceiveOverrideFn`, the
receive callback sends one message whose status is `NEW`, not `SUCCEED`. -/
theorem receiveFn_without_override_is_NEW :
    tasks (emptyRouter.dispatch allOk { Address := "a", Type_ := .LISTENER }).2.1
        = [.Receive "a" (receiveFn { Address := "a", Type_ := .LISTENER })] ∧
      (receiveFn { Address := "a", Type_ := .LISTENER } ⟨"1", "p"⟩).map (fun o => o.Status)
        = [.NEW] ∧
      ¬ ∃ out, receiveFn { Address := "a", Type_ := .LISTENER } ⟨"1", "p"⟩ = [out] ∧
        out.Status = .SUCCEED := by
  refine ⟨by rfl, by rfl, ?_⟩
  rintro ⟨out, h, hs⟩
  simp [receiveFn] at h
  subst h
  simp at hs

/-- C1 (amended): when the dispatch loop creates a listener for the command `d` (kind
LISTENER, status not DELETE, address absent, creation succeeds), it starts exactly one
subscription goroutine, whose callback is `receiveFn d`; that subscription runs on the new
listener; and for every received event `e` the callback sends exactly one message on
`DataOut`, with Type EVENT, the listener's address and `e` as payload, whose status is NEW
when no `OnReceiveOverrideFn` was attached, SUCCEED when the attached override returned no
error, and FAILED when it returned an error. -/
theorem listener_callback_result (w : World) (q : Router) (d : DataChan) (e : cloudevents.Event)
    (hT : d.Type_ = .LISTENER) (hS : d.Status ≠ .DELETE)
    (hAbs : q.Listeners.lookup d.Address = none)
    (hs : w q.fresh .NewSession = none)
    (hl : w (q.fresh + 1) (.NewReceiverProtocolFromClient q.fresh d.Address amqpLinkCredit) = none)
    (hc : w (q.fresh + 3) (.NewClient (q.fresh + 1)) = none) :
    tasks (q.dispatch w d).2.1 = [.Receive d.Address (receiveFn d)] ∧
      ((q.dispatch w d).1.Receive d.Address (receiveFn d)).2 =
        .ret (some { client := q.fresh + 3, ctx := some (q.fresh + 2), fn := receiveFn d }) ∧
      ∃ out, receiveFn d e = [out] ∧ out.Type_ = .EVENT ∧ out.Address = d.Address ∧
        out.Data = some e ∧
        (d.OnReceiveOverrideFn = none → out.Status = .NEW) ∧
        (∀ fn, d.OnReceiveOverrideFn = some fn → fn e = none → out.Status = .SUCCEED) ∧
        (∀ fn err, d.OnReceiveOverrideFn = some fn → fn e = some err → out.Status = .FAILED) := by
  refine ⟨?_, ?_, ?_⟩
  · simp [Router.dispatch, hT, hS, hAbs, NewReceiver_ok w q d.Address hs hl hc, tasks,
      Action.task]
  · simp [Router.dispatch, hT, hS, hAbs, NewReceiver_ok w q d.Address hs hl hc,
      Router.Receive, AList.lookup_insert]
  · unfold receiveFn
    cases hf : d.OnReceiveOverrideFn with
    | none => simp
    | some fn =>
      cases hr : fn e with
      | none =>
        simp only [hr]
        refine ⟨_, rfl, rfl, rfl, rfl, by simp, fun _ _ _ => rfl, ?_⟩
        intro fn2 err h2 h3
        cases h2
        rw [hr] at h3
        cases h3
      | some err =>
        simp only [hr]
        refine ⟨_, rfl, rfl, rfl, rfl, by simp, ?_, fun _ _ _ _ => rfl⟩
        intro fn2 h2 h3
        cases h2
        rw [hr] at h3
        cases h3

/-- Witness for `listener_callback_result`: a listener for "a" on the empty router, no
library call failing, no override attached. -/
theorem listener_callback_result_witness :
    tasks (emptyRouter.dispatch allOk { Address := "a", Type_ := .LISTENER }).2.1
        = [.Receive "a" (receiveFn { Address := "a", Type_ := .LISTENER })] ∧
      ((emptyRouter.dispatch allOk { Address := "a", Type_ := .LISTENER }).1.Receive "a"
          (receiveFn { Address := "a", Type_ := .LISTENER })).2 =
        .ret (some { client := 4, ctx := some 3,
                     fn := receiveFn { Address := "a", Type_ := .LISTENER } }) ∧
      ∃ out, receiveFn { Address := "a", Type_ := .LISTENER } ⟨"1", "p"⟩ = [out] ∧
        out.Type_ = .EVENT ∧ out.Address = "a" ∧ out.Data = some ⟨"1", "p"⟩ ∧
        out.Status = .NEW := by
  obtain ⟨h1, h2, out, h3, h4, h5, h6, h7, _⟩ :=
    listener_callback_result allOk emptyRouter { Address := "a", Type_ := .LISTENER } ⟨"1", "p"⟩
      rfl (by decide) (by decide) rfl rfl rfl
  exact ⟨h1, h2, out, h3, h4, h5, h6, h7 rfl⟩

/-! ## C2: classification of a send -/

/-- C2: for a sender `p` registered under `address` and having a client, `SendTo` starts
exactly one goroutine for the event and `SendToAll` starts one goroutine per entry of the
map, among them one for `p`; and each of these send attempts, for the result `r` of
`Client.Send` (deadline `cancelTimeout` for `SendTo`, one second for `SendToAll`), sends
exactly one message with status FAILED, Type EVENT, the sender's address and the event when
`r` is undelivered; exactly one such message with status SUCCEED when `r` is a negative
acknowledgement and not undelivered; and no message when `r` is an acknowledgement. -/
theorem send_result_classification (send : Transport) (q : Router) (address : String)
    (p : Protocol) (c : Nat) (e : cloudevents.Event) (t : Task) (r : cloudevents.Result)
    (hp : q.Senders.lookup address = some p) (hc : p.Client = some c)
    (ht : (t = .SendTo p address (some e) ∧ r = send c e cancelTimeout) ∨
      (t = .SendToAll p address e ∧ r = send c e 1)) :
    tasks (q.SendTo address (some e)) = [.SendTo p address (some e)] ∧
      Task.SendToAll p address e ∈ tasks (q.SendToAll e) ∧
      (tasks (q.SendToAll e)).length = q.Senders.entries.length ∧
      (cloudevents.IsUndelivered r = true →
        t.send send =
          .ret [{ Address := address, Data := some e, Status := .FAILED, Type_ := .EVENT }]) ∧
      (cloudevents.IsUndelivered r = false → cloudevents.IsNACK r = true →
        t.send send =
          .ret [{ Address := address, Data := some e, Status := .SUCCEED, Type_ := .EVENT }]) ∧
      (cloudevents.IsACK r = true → t.send send = .ret []) := by
  have hall : tasks (q.SendToAll e) =
      q.Senders.entries.map (fun ks => Task.SendToAll ks.2 ks.1 e) := by
    simp only [tasks, Router.SendToAll, List.filterMap_map]
    induction q.Senders.entries with
    | nil => rfl
    | cons x xs ih => simp [List.filterMap_cons, Action.task, ih]
  refine ⟨by simp [Router.SendTo, hp, tasks, Action.task], ?_, ?_, ?_⟩
  · rw [hall]
    exact List.mem_map.mpr ⟨⟨address, p⟩, AList.mem_lookup_iff.mp hp, rfl⟩
  · rw [hall, List.length_map]
  · rcases ht with ⟨rfl, rfl⟩ | ⟨rfl, rfl⟩
    · simp only [Task.send, sendToBody, hc]
      cases h : send c e cancelTimeout <;>
        simp [cloudevents.IsUndelivered, cloudevents.IsNACK, cloudevents.IsACK]
    · simp only [Task.send, sendToAllBody, hc]
      cases h : send c e 1 <;>
        simp [cloudevents.IsUndelivered, cloudevents.IsNACK, cloudevents.IsACK]

/-- Witness for `send_result_classification`: a targeted send over the sender "a" that the
transport reports as failed ("no listeners") yields one FAILED message. -/
theorem send_result_classification_witness :
    Task.send (fun _ _ _ => .other "no listeners")
        (.SendTo { Client := some 3,
                   Protocol := some ⟨2, .sender, none, some 1, "a", none⟩ } "a"
          (some ⟨"1", "p"⟩)) =
      .ret [{ Address := "a", Data := some ⟨"1", "p"⟩, Status := .FAILED, Type_ := .EVENT }] :=
  (send_result_classification (fun _ _ _ => .other "no listeners")
    (emptyRouter.dispatch allOk { Address := "a", Type_ := .SENDER }).1 "a"
    { Client := some 3, Protocol := some ⟨2, .sender, none, some 1, "a", none⟩ } 3
    ⟨"1", "p"⟩ _ _ (by decide) rfl (Or.inl ⟨rfl, rfl⟩)).2.2.2.1 rfl

/-! ## C3: CREATE for an address that is present -/

/-- C3: a CREATE command (kind LISTENER or SENDER, status not DELETE) whose address is
already in the corresponding map leaves the router as it is (both maps, hence every key
and the endpoint bound to it), makes no library call (no session, no link), starts no
goroutine and lets the loop go on; processing the same command again changes nothing
either. -/
theorem create_existing_is_noop (w : World) (q : Router) (d : DataChan)
    (hS : d.Status ≠ .DELETE)
    (hP : (d.Type_ = .LISTENER ∧ (q.Listeners.lookup d.Address).isSome = true) ∨
      (d.Type_ = .SENDER ∧ (q.Senders.lookup d.Address).isSome = true)) :
    (q.dispatch w d).1 = q ∧ libCalls (q.dispatch w d).2.1 = [] ∧
      tasks (q.dispatch w d).2.1 = [] ∧ results (q.dispatch w d).2.1 = [] ∧
      (q.dispatch w d).2.2 = .ret () ∧
      ∀ w2 : World, ((q.dispatch w d).1.dispatch w2 d).1 = (q.dispatch w d).1 := by
  have key : ∀ w1 : World, (q.dispatch w1 d).1 = q ∧ libCalls (q.dispatch w1 d).2.1 = [] ∧
      tasks (q.dispatch w1 d).2.1 = [] ∧ results (q.dispatch w1 d).2.1 = [] ∧
      (q.dispatch w1 d).2.2 = .ret () := by
    intro w1
    rcases hP with ⟨hT, hL⟩ | ⟨hT, hL⟩
    · obtain ⟨l, hl⟩ := Option.isSome_iff_exists.mp hL
      simp [Router.dispatch, hT, hS, hl, libCalls, tasks, results, Action.libCall, Action.task,
        Action.result]
    · obtain ⟨l, hl⟩ := Option.isSome_iff_exists.mp hL
      simp [Router.dispatch, hT, hS, hl, libCalls, tasks, results, Action.libCall, Action.task,
        Action.result]
  refine ⟨(key w).1, (key w).2.1, (key w).2.2.1, (key w).2.2.2.1, (key w).2.2.2.2, ?_⟩
  intro w2
  rw [(key w).1]
  exact (key w2).1

/-- Witness for `create_existing_is_noop`: a second CREATE of the sender "a". -/
theorem create_existing_is_noop_witness :
    ((emptyRouter.dispatch allOk { Address := "a", Type_ := .SENDER }).1.dispatch allOk
        { Address := "a", Type_ := .SENDER }).1 =
      (emptyRouter.dispatch allOk { Address := "a", Type_ := .SENDER }).1 :=
  (create_existing_is_noop allOk
    (emptyRouter.dispatch allOk { Address := "a", Type_ := .SENDER }).1
    { Address := "a", Type_ := .SENDER } (by decide) (Or.inr ⟨rfl, by decide⟩)).1

/-! ## C4: the shutdown signal -/

/-- C4: when the dispatch loop of a router whose endpoints are well formed takes the
`Close` case, it returns, whatever inputs would follow (none of them is processed); both
maps are empty afterwards; there is one link `Close` per sender entry and one `CancelFn`
call per listener entry, and for every sender that was in the map its link is closed
exactly once, for every listener that was in the map its `CancelFn` is called exactly
once. -/
theorem close_tears_everything_down (w : World) (q : Router) (rest : List Select)
    (hwf : q.WF) :
    (q.QDRRouter w (.Close :: rest)).2.2 = .returned ∧
      (q.QDRRouter w (.Close :: rest)).1.Senders = ∅ ∧
      (q.QDRRouter w (.Close :: rest)).1.Listeners = ∅ ∧
      (closes (q.QDRRouter w (.Close :: rest)).2.1).length = q.Senders.entries.length ∧
      (cancels (q.QDRRouter w (.Close :: rest)).2.1).length = q.Listeners.entries.length ∧
      (∀ ks ∈ q.Senders.entries, ∀ p, ks.2.Protocol = some p →
        (closes (q.QDRRouter w (.Close :: rest)).2.1).count p.id = 1) ∧
      (∀ kl ∈ q.Listeners.entries, ∀ h, kl.2.CancelFn = some h →
        (cancels (q.QDRRouter w (.Close :: rest)).2.1).count h = 1) ∧
      q.QDRRouter w (.Close :: rest) = q.QDRRouter w [.Close] := by
  obtain ⟨h1, h2, h3, h4, h5, _, _⟩ := shutdown_spec q hwf
  have hq : ∀ r : List Select, q.QDRRouter w (.Close :: r) =
      (q.shutdown.1, q.shutdown.2.1, .returned) := by
    intro r
    unfold Router.QDRRouter
    generalize q.shutdown = sd at *
    obtain ⟨q1, t1, f1⟩ := sd
    simp only at h1
    subst h1
    rfl
  rw [hq rest, hq []]
  refine ⟨rfl, h2, h3, ?_, ?_, ?_, ?_, rfl⟩
  · have := congrArg List.length h4
    simpa [Router.senderLinks] using this
  · have := congrArg List.length h5
    simpa [Router.listenerCancels] using this
  · intro ks hks p hp
    refine count_eq_one_of_map_some _ _ _ h4 hwf.2.2.1 ?_
    have := List.mem_map_of_mem (fun ks : (Sigma fun _ : String => Protocol) =>
      ks.2.Protocol.map fun p => p.id) hks
    simpa [Router.senderLinks, hp] using this
  · intro kl hkl h hh
    refine count_eq_one_of_map_some _ _ _ h5 hwf.2.2.2 ?_
    have := List.mem_map_of_mem (fun kl : (Sigma fun _ : String => Protocol) =>
      kl.2.CancelFn) hkl
    simpa [Router.listenerCancels, hh] using this

/-- Witness for `close_tears_everything_down`: a router holding the sender "a" and the
listener "b" receives `Close` while a command is still queued. -/
theorem close_tears_everything_down_witness :
    (((emptyRouter.dispatch allOk { Address := "a", Type_ := .SENDER }).1.dispatch allOk
        { Address := "b", Type_ := .LISTENER }).1.QDRRouter allOk
        [.Close, .DataIn { Address := "c", Type_ := .SENDER }]).2.2 = .returned ∧
      (((emptyRouter.dispatch allOk { Address := "a", Type_ := .SENDER }).1.dispatch allOk
        { Address := "b", Type_ := .LISTENER }).1.QDRRouter allOk
        [.Close, .DataIn { Address := "c", Type_ := .SENDER }]).1.Senders = ∅ :=
  have h := close_tears_everything_down allOk
    ((emptyRouter.dispatch allOk { Address := "a", Type_ := .SENDER }).1.dispatch allOk
      { Address := "b", Type_ := .LISTENER }).1
    [.DataIn { Address := "c", Type_ := .SENDER }] (by decide)
  ⟨h.1, h.2.1⟩

/-! ## C5: a failing client construction -/

/-- C5 fails as stated: with a client construction that fails, the CREATE of the sender
"a" ends the process (`log.Fatalf`); the CREATE of "b" queued behind it is never
processed: the only library calls are the three made for "a". -/
theorem client_failure_ends_the_loop :
    (emptyRouter.QDRRouter clientFails
        [.DataIn { Address := "a", Type_ := .SENDER },
          .DataIn { Address := "b", Type_ := .SENDER }]).2.2 = .exited ∧
      libCalls (emptyRouter.QDRRouter clientFails
        [.DataIn { Address := "a", Type_ := .SENDER },
          .DataIn { Address := "b", Type_ := .SENDER }]).2.1
        = [.NewSession, .NewSenderProtocolFromClient 1 "a", .NewClient 2] ∧
      libCalls (emptyRouter.QDRRouter allOk
        [.DataIn { Address := "a", Type_ := .SENDER },
          .DataIn { Address := "b", Type_ := .SENDER }]).2.1
        = [.NewSession, .NewSenderProtocolFromClient 1 "a", .NewClient 2,
           .NewSession, .NewSenderProtocolFromClient 4 "b", .NewClient 5] := by
  refine ⟨by rfl, by rfl, by rfl⟩

/-- C5 (amended): when, during a CREATE command for an absent address, session and link
are obtained and the client construction fails, the dispatch loop ends with the process:
the failure is logged by `log.Fatalf` (the last action of the trace), both maps are as
they were, no goroutine is started, no message is sent on `DataOut`, and none of the
commands that follow is processed. -/
theorem client_failure_is_fatal (w : World) (q : Router) (d : DataChan) (rest : List Select)
    (err : String) (hS : d.Status ≠ .DELETE)
    (h : (d.Type_ = .LISTENER ∧ q.Listeners.lookup d.Address = none ∧
          w q.fresh .NewSession = none ∧
          w (q.fresh + 1) (.NewReceiverProtocolFromClient q.fresh d.Address amqpLinkCredit)
            = none ∧
          w (q.fresh + 3) (.NewClient (q.fresh + 1)) = some err) ∨
        (d.Type_ = .SENDER ∧ q.Senders.lookup d.Address = none ∧
          w q.fresh .NewSession = none ∧
          w (q.fresh + 1) (.NewSenderProtocolFromClient q.fresh d.Address) = none ∧
          w (q.fresh + 2) (.NewClient (q.fresh + 1)) = some err)) :
    (q.QDRRouter w (.DataIn d :: rest)).2.2 = .exited ∧
      (q.QDRRouter w (.DataIn d :: rest)).1.Senders = q.Senders ∧
      (q.QDRRouter w (.DataIn d :: rest)).1.Listeners = q.Listeners ∧
      (∃ msg, (q.QDRRouter w (.DataIn d :: rest)).2.1.getLast? = some (.fatal msg)) ∧
      tasks (q.QDRRouter w (.DataIn d :: rest)).2.1 = [] ∧
      results (q.QDRRouter w (.DataIn d :: rest)).2.1 = [] ∧
      q.QDRRouter w (.DataIn d :: rest) =
        ((q.dispatch w d).1, (q.dispatch w d).2.1, .exited) := by
  rcases h with ⟨hT, hA, hs, hl, hc⟩ | ⟨hT, hA, hs, hl, hc⟩
  · have hd : q.dispatch w d = ({ q with fresh := q.fresh + 4 },
        [.log "(1)listener not found for the following address %s, creating listener",
          .call q.fresh .NewSession none,
          .call (q.fresh + 1)
            (.NewReceiverProtocolFromClient q.fresh d.Address amqpLinkCredit) none,
          .log "(new receiver) router connection established %s",
          .withCancel (q.fresh + 2),
          .call (q.fresh + 3) (.NewClient (q.fresh + 1)) (some err),
          .fatal "failed to create a receiver client: %v"], .exit) := by
      simp [Router.dispatch, hT, hS, hA, NewReceiver_client_err w q d.Address err hs hl hc]
    rw [Router.QDRRouter, hd]
    exact ⟨rfl, rfl, rfl, ⟨_, rfl⟩, rfl, rfl, rfl⟩
  · have hd : q.dispatch w d = ({ q with fresh := q.fresh + 3 },
        [.log "(1)sender not found for the following address, %s  will attempt to create",
          .call q.fresh .NewSession none,
          .call (q.fresh + 1) (.NewSenderProtocolFromClient q.fresh d.Address) none,
          .call (q.fresh + 2) (.NewClient (q.fresh + 1)) (some err),
          .fatal "failed to create an amqp sender client: %v"], .exit) := by
      simp [Router.dispatch, hT, hS, hA, NewSender_client_err w q d.Address err hs hl hc]
    rw [Router.QDRRouter, hd]
    exact ⟨rfl, rfl, rfl, ⟨_, rfl⟩, rfl, rfl, rfl⟩

/-- Witness for `client_failure_is_fatal`: the listener "a" on the empty router, with a
failing client construction and a command queued behind. -/
theorem client_failure_is_fatal_witness :
    (emptyRouter.QDRRouter clientFails
        [.DataIn { Address := "a", Type_ := .LISTENER },
          .DataIn { Address := "b", Type_ := .SENDER }]).2.2 = .exited :=
  (client_failure_is_fatal clientFails emptyRouter { Address := "a", Type_ := .LISTENER }
    [.DataIn { Address := "b", Type_ := .SENDER }] "client" (by decide)
    (Or.inl ⟨rfl, rfl, rfl, rfl, rfl⟩)).1

/-! ## C6: CREATE for an address that is absent -/

/-- C6 fails as stated: session and link negotiation for the sender "a" succeed, the
client construction after them fails, and the address is not in the Senders map
afterwards (the process has exited). -/
theorem negotiated_sender_not_registered :
    emptyRouter.Senders.lookup "a" = none ∧
      clientFails emptyRouter.fresh .NewSession = none ∧
      clientFails (emptyRouter.fresh + 1) (.NewSenderProtocolFromClient emptyRouter.fresh "a")
        = none ∧
      (emptyRouter.dispatch clientFails { Address := "a", Type_ := .SENDER }).1.Senders.lookup "a"
        = none ∧
      (emptyRouter.dispatch clientFails { Address := "a", Type_ := .SENDER }).2.2 = .exit := by
  refine ⟨by rfl, by rfl, by rfl, by rfl, by rfl⟩

/-- C6 (amended): for a CREATE command (status not DELETE) whose address is absent from
the corresponding map: if session or link negotiation fails with `err`, then `NewSender` /
`NewReceiver` returns `err`, both maps are unchanged, no goroutine is started, no message
is sent on `DataOut`, the loop goes on, and processing the same CREATE again starts with a
new session request; if negotiation and the client construction succeed, the address is in
the corresponding map afterwards, every other key of it is bound as before and the other
map is unchanged. -/
theorem create_absent_outcomes (w : World) (q : Router) (d : DataChan)
    (hS : d.Status ≠ .DELETE) :
    (d.Type_ = .SENDER → q.Senders.lookup d.Address = none →
      (∀ err,
        (w q.fresh .NewSession = some err ∨
          (w q.fresh .NewSession = none ∧
            w (q.fresh + 1) (.NewSenderProtocolFromClient q.fresh d.Address) = some err)) →
        (q.NewSender w d.Address).2.2 = .ret (some err) ∧
          (q.dispatch w d).1.Senders = q.Senders ∧
          (q.dispatch w d).1.Listeners = q.Listeners ∧
          tasks (q.dispatch w d).2.1 = [] ∧ results (q.dispatch w d).2.1 = [] ∧
          (q.dispatch w d).2.2 = .ret () ∧
          ∀ w2 : World,
            (libCalls ((q.dispatch w d).1.dispatch w2 d).2.1).head? = some .NewSession) ∧
      (w q.fresh .NewSession = none →
        w (q.fresh + 1) (.NewSenderProtocolFromClient q.fresh d.Address) = none →
        w (q.fresh + 2) (.NewClient (q.fresh + 1)) = none →
        ((q.dispatch w d).1.Senders.lookup d.Address).isSome = true ∧
          (∀ k, k ≠ d.Address → (q.dispatch w d).1.Senders.lookup k = q.Senders.lookup k) ∧
          (q.dispatch w d).1.Listeners = q.Listeners ∧ (q.dispatch w d).2.2 = .ret ())) ∧
    (d.Type_ = .LISTENER → q.Listeners.lookup d.Address = none →
      (∀ err,
        (w q.fresh .NewSession = some err ∨
          (w q.fresh .NewSession = none ∧
            w (q.fresh + 1) (.NewReceiverProtocolFromClient q.fresh d.Address amqpLinkCredit)
              = some err)) →
        (q.NewReceiver w d.Address).2.2 = .ret (some err) ∧
          (q.dispatch w d).1.Senders = q.Senders ∧
          (q.dispatch w d).1.Listeners = q.Listeners ∧
          tasks (q.dispatch w d).2.1 = [] ∧ results (q.dispatch w d).2.1 = [] ∧
          (q.dispatch w d).2.2 = .ret () ∧
          ∀ w2 : World,
            (libCalls ((q.dispatch w d).1.dispatch w2 d).2.1).head? = some .NewSession) ∧
      (w q.fresh .NewSession = none →
        w (q.fresh + 1) (.NewReceiverProtocolFromClient q.fresh d.Address amqpLinkCredit)
          = none →
        w (q.fresh + 3) (.NewClient (q.fresh + 1)) = none →
        ((q.dispatch w d).1.Listeners.lookup d.Address).isSome = true ∧
          (∀ k, k ≠ d.Address →
            (q.dispatch w d).1.Listeners.lookup k = q.Listeners.lookup k) ∧
          (q.dispatch w d).1.Senders = q.Senders ∧ (q.dispatch w d).2.2 = .ret ())) := by
  have hS' : ¬ d.Status = .DELETE := hS
  have retryS : ∀ (q1 : Router) (w2 : World), d.Type_ = .SENDER →
      q1.Senders.lookup d.Address = none →
      (libCalls (q1.dispatch w2 d).2.1).head? = some .NewSession := by
    intro q1 w2 hT hA
    simp only [Router.dispatch, hT, hS', hA, Router.NewSender, Router.NewSession]
    cases h1 : w2 q1.fresh .NewSession <;> simp [libCalls, Action.libCall]
    cases h2 : w2 (q1.fresh + 1) (.NewSenderProtocolFromClient q1.fresh d.Address) <;>
      simp [Action.libCall]
    cases h3 : w2 (q1.fresh + 1 + 1) (.NewClient (q1.fresh + 1)) <;> simp [Action.libCall]
  have retryL : ∀ (q1 : Router) (w2 : World), d.Type_ = .LISTENER →
      q1.Listeners.lookup d.Address = none →
      (libCalls (q1.dispatch w2 d).2.1).head? = some .NewSession := by
    intro q1 w2 hT hA
    simp only [Router.dispatch, hT, hS', hA, Router.NewReceiver, Router.NewSession]
    cases h1 : w2 q1.fresh .NewSession <;> simp [libCalls, Action.libCall]
    cases h2 : w2 (q1.fresh + 1)
        (.NewReceiverProtocolFromClient q1.fresh d.Address amqpLinkCredit) <;>
      simp [Action.libCall]
    cases h3 : w2 (q1.fresh + 1 + 1 + 1) (.NewClient (q1.fresh + 1)) <;>
      simp [Action.libCall]
  refine ⟨fun hT hA => ⟨?_, ?_⟩, fun hT hA => ⟨?_, ?_⟩⟩
  · intro err herr
    have hN : ∃ n t, q.NewSender w d.Address = ({ q with fresh := n }, t, .ret (some err)) ∧
        tasks t = [] ∧ results t = [] := by
      rcases herr with hs | ⟨hs, hl⟩
      · exact ⟨_, _, NewSender_session_err w q d.Address err hs, rfl, rfl⟩
      · exact ⟨_, _, NewSender_link_err w q d.Address err hs hl, rfl, rfl⟩
    obtain ⟨n, t, hN, ht, hr⟩ := hN
    have hd : q.dispatch w d = ({ q with fresh := n },
        .log "(1)sender not found for the following address, %s  will attempt to create" ::
          t ++ [.log "(1)error creating sender %v for address %s"], .ret ()) := by
      simp [Router.dispatch, hT, hS, hA, hN]
    rw [hN, hd]
    refine ⟨rfl, rfl, rfl, ?_, ?_, rfl, ?_⟩
    · simp only [tasks] at ht ⊢
      simp [List.filterMap_append, ht, Action.task]
    · simp only [results] at hr ⊢
      simp [List.filterMap_append, hr, Action.result]
    · intro w2
      exact retryS _ w2 hT hA
  · intro hs hl hc
    have hd : q.dispatch w d = ({ q with
          fresh := q.fresh + 3,
          Senders := q.Senders.insert d.Address
            { Client := some (q.fresh + 2),
              Protocol := some ⟨q.fresh + 1, .sender, none, some q.fresh, d.Address, none⟩ } },
        [.log "(1)sender not found for the following address, %s  will attempt to create",
          .call q.fresh .NewSession none,
          .call (q.fresh + 1) (.NewSenderProtocolFromClient q.fresh d.Address) none,
          .call (q.fresh + 2) (.NewClient (q.fresh + 1)) none, .store .Senders d.Address],
        .ret ()) := by
      simp [Router.dispatch, hT, hS, hA, NewSender_ok w q d.Address hs hl hc]
    rw [hd]
    refine ⟨?_, ?_, rfl, rfl⟩
    · simp [AList.lookup_insert]
    · intro k hk
      exact AList.lookup_insert_ne hk
  · intro err herr
    have hN : ∃ n t, q.NewReceiver w d.Address = ({ q with fresh := n }, t, .ret (some err)) ∧
        tasks t = [] ∧ results t = [] := by
      rcases herr with hs | ⟨hs, hl⟩
      · exact ⟨_, _, NewReceiver_session_err w q d.Address err hs, rfl, rfl⟩
      · exact ⟨_, _, NewReceiver_link_err w q d.Address err hs hl, rfl, rfl⟩
    obtain ⟨n, t, hN, ht, hr⟩ := hN
    have hd : q.dispatch w d = ({ q with fresh := n },
        .log "(1)listener not found for the following address %s, creating listener" ::
          t ++ [.log "error creating Receiver %v"], .ret ()) := by
      simp [Router.dispatch, hT, hS, hA, hN]
    rw [hN, hd]
    refine ⟨rfl, rfl, rfl, ?_, ?_, rfl, ?_⟩
    · simp only [tasks] at ht ⊢
      simp [List.filterMap_append, ht, Action.task]
    · simp only [results] at hr ⊢
      simp [List.filterMap_append, hr, Action.result]
    · intro w2
      exact retryL _ w2 hT hA
  · intro hs hl hc
    have hd : (q.dispatch w d).1 = { q with
          fresh := q.fresh + 4,
          Listeners := q.Listeners.insert d.Address
            { CancelFn := some (q.fresh + 2), ParentContext := some (q.fresh + 2),
              Client := some (q.fresh + 3),
              Protocol := some
                ⟨q.fresh + 1, .receiver, none, some q.fresh, d.Address, some amqpLinkCredit⟩ } } ∧
        (q.dispatch w d).2.2 = .ret () := by
      simp [Router.dispatch, hT, hS, hA, NewReceiver_ok w q d.Address hs hl hc]
    rw [hd.1, hd.2]
    refine ⟨?_, ?_, rfl, rfl⟩
    · simp [AList.lookup_insert]
    · intro k hk
      exact AList.lookup_insert_ne hk

/-- Witness for `create_absent_outcomes`: the session for the sender "a" cannot be opened;
the map stays empty and the error is the one of the session. -/
theorem create_absent_outcomes_witness :
    (emptyRouter.NewSender sessionFails "a").2.2 = .ret (some "session") ∧
      (emptyRouter.dispatch sessionFails { Address := "a", Type_ := .SENDER }).1.Senders
        = emptyRouter.Senders :=
  have h := ((create_absent_outcomes sessionFails emptyRouter { Address := "a", Type_ := .SENDER }
    (by decide)).1 rfl rfl).1 "session" (Or.inl rfl)
  ⟨h.1, h.2.1⟩

/-! ## C7: an EVENT command -/

/-- C7: for a command of kind EVENT and status NEW, the dispatch loop starts exactly one
send goroutine, carrying the command's payload to the command's address over the sender
found in the map, when the address has a sender, and starts none when it has not (so
exactly one is started if and only if the address is in the Senders map); it sends no
message on `DataOut`, makes no library call, leaves the router (both maps) unchanged and
goes on. -/
theorem event_new_sends_iff_sender (w : World) (q : Router) (d : DataChan)
    (hT : d.Type_ = .EVENT) (hS : d.Status = .NEW) :
    (q.dispatch w d).1 = q ∧ (q.dispatch w d).2.2 = .ret () ∧
      results (q.dispatch w d).2.1 = [] ∧ libCalls (q.dispatch w d).2.1 = [] ∧
      (∀ sender, q.Senders.lookup d.Address = some sender →
        tasks (q.dispatch w d).2.1 = [.SendTo sender d.Address d.Data]) ∧
      (q.Senders.lookup d.Address = none → tasks (q.dispatch w d).2.1 = []) ∧
      ((tasks (q.dispatch w d).2.1).length = 1 ↔ d.Address ∈ q.Senders) := by
  cases hl : q.Senders.lookup d.Address with
  | none =>
    have hmem : d.Address ∉ q.Senders := AList.lookup_eq_none.mp hl
    simp [Router.dispatch, hT, hS, hl, hmem, libCalls, tasks, results, Action.libCall,
      Action.task, Action.result]
  | some sender =>
    have hmem : d.Address ∈ q.Senders := by
      rw [← AList.lookup_isSome, hl]; rfl
    simp [Router.dispatch, Router.SendTo, hT, hS, hl, hmem, libCalls, tasks, results,
      Action.libCall, Action.task, Action.result]

/-- Witness for `event_new_sends_iff_sender`: an event for "a" after the sender "a" was
created starts one send goroutine. -/
theorem event_new_sends_iff_sender_witness :
    (tasks ((emptyRouter.dispatch allOk { Address := "a", Type_ := .SENDER }).1.dispatch allOk
      { Address := "a", Type_ := .EVENT, Data := some ⟨"1", "p"⟩ }).2.1).length = 1 :=
  (event_new_sends_iff_sender allOk
    (emptyRouter.dispatch allOk { Address := "a", Type_ := .SENDER }).1
    { Address := "a", Type_ := .EVENT, Data := some ⟨"1", "p"⟩ } rfl rfl).2.2.2.2.2.2.mpr
    (by decide)

/-! ## C8: DELETE for an address that is absent -/

/-- C8: a DELETE command (kind LISTENER or SENDER) whose address is not in the
corresponding map does nothing at all: the router is unchanged, the trace is empty (no
`CancelFn`, no `Close`, no message on `DataOut`), and the loop goes on with the commands
that follow. -/
theorem delete_absent_is_noop (w : World) (q : Router) (d : DataChan) (rest : List Select)
    (hS : d.Status = .DELETE)
    (hA : (d.Type_ = .LISTENER ∧ q.Listeners.lookup d.Address = none) ∨
      (d.Type_ = .SENDER ∧ q.Senders.lookup d.Address = none)) :
    q.dispatch w d = (q, [], .ret ()) ∧
      q.QDRRouter w (.DataIn d :: rest) = q.QDRRouter w rest := by
  have h : q.dispatch w d = (q, [], .ret ()) := by
    rcases hA with ⟨hT, hl⟩ | ⟨hT, hl⟩ <;> simp [Router.dispatch, hT, hS, hl]
  refine ⟨h, ?_⟩
  rw [Router.QDRRouter, h]
  simp

/-- Witness for `delete_absent_is_noop`: deleting the listener "a" of the empty router. -/
theorem delete_absent_is_noop_witness :
    emptyRouter.dispatch allOk { Address := "a", Type_ := .LISTENER, Status := .DELETE } =
      (emptyRouter, [], .ret ()) :=
  (delete_absent_is_noop allOk emptyRouter
    { Address := "a", Type_ := .LISTENER, Status := .DELETE } [] rfl (Or.inl ⟨rfl, rfl⟩)).1

/-! ## C9: DELETE for an address that is present -/

/-- C9: a DELETE command whose address is in the corresponding map, bound to an endpoint
with its teardown handle (the listener's `CancelFn` `h`, the sender's link `p`): the
trace is the teardown, then the deletion of the key, then a log line, so the teardown is
invoked exactly once and before the entry is removed; afterwards the address is absent
from that map, every other key of it is bound as before, the other map is unchanged, no
goroutine is started and no message is sent on `DataOut`.  And in every run of the
dispatch loop, from any router and on any inputs, each deletion from the Listeners map
comes directly after a call of a `CancelFn`. -/
theorem delete_present_tears_down (w : World) (q : Router) (d : DataChan)
    (hS : d.Status = .DELETE) :
    (∀ listener h, d.Type_ = .LISTENER → q.Listeners.lookup d.Address = some listener →
        listener.CancelFn = some h →
        (q.dispatch w d).2.1 =
            [.cancel h, .delete .Listeners d.Address, .log "listener deleted"] ∧
          cancels (q.dispatch w d).2.1 = [h] ∧ results (q.dispatch w d).2.1 = [] ∧
          (q.dispatch w d).1.Listeners.lookup d.Address = none ∧
          (∀ k, k ≠ d.Address →
            (q.dispatch w d).1.Listeners.lookup k = q.Listeners.lookup k) ∧
          (q.dispatch w d).1.Senders = q.Senders ∧ (q.dispatch w d).2.2 = .ret ()) ∧
      (∀ sender p, d.Type_ = .SENDER → q.Senders.lookup d.Address = some sender →
        sender.Protocol = some p →
        (q.dispatch w d).2.1 = [.close p.id, .delete .Senders d.Address, .log "sender deleted"] ∧
          closes (q.dispatch w d).2.1 = [p.id] ∧ results (q.dispatch w d).2.1 = [] ∧
          (q.dispatch w d).1.Senders.lookup d.Address = none ∧
          (∀ k, k ≠ d.Address → (q.dispatch w d).1.Senders.lookup k = q.Senders.lookup k) ∧
          (q.dispatch w d).1.Listeners = q.Listeners ∧ (q.dispatch w d).2.2 = .ret ()) ∧
      ∀ (w2 : World) (q2 : Router) (inputs : List Select),
        cancelledBeforeDelete false (q2.QDRRouter w2 inputs).2.1 = true := by
  refine ⟨?_, ?_, fun w2 q2 inputs => QDRRouter_cancelledBeforeDelete w2 q2 inputs⟩
  · intro listener h hT hl hh
    have hd : q.dispatch w d =
        ({ q with Listeners := q.Listeners.erase d.Address },
          [.cancel h, .delete .Listeners d.Address, .log "listener deleted"], .ret ()) := by
      simp [Router.dispatch, hT, hS, hl, hh]
    rw [hd]
    refine ⟨rfl, rfl, rfl, AList.lookup_erase _ _, ?_, rfl, rfl⟩
    intro k hk
    exact AList.lookup_erase_ne hk
  · intro sender p hT hl hh
    have hd : q.dispatch w d =
        ({ q with Senders := q.Senders.erase d.Address },
          [.close p.id, .delete .Senders d.Address, .log "sender deleted"], .ret ()) := by
      simp [Router.dispatch, hT, hS, hl, hh]
    rw [hd]
    refine ⟨rfl, rfl, rfl, AList.lookup_erase _ _, ?_, rfl, rfl⟩
    intro k hk
    exact AList.lookup_erase_ne hk

/-- Witness for `delete_present_tears_down`: with a listener and a sender both on "a",
deleting the listener cancels its context 3 and leaves the sender map alone. -/
theorem delete_present_tears_down_witness :
    (((emptyRouter.dispatch allOk { Address := "a", Type_ := .LISTENER }).1.dispatch allOk
        { Address := "a", Type_ := .SENDER }).1.dispatch allOk
        { Address := "a", Type_ := .LISTENER, Status := .DELETE }).2.1 =
      [.cancel 3, .delete .Listeners "a", .log "listener deleted"] :=
  ((delete_present_tears_down allOk
    ((emptyRouter.dispatch allOk { Address := "a", Type_ := .LISTENER }).1.dispatch allOk
        { Address := "a", Type_ := .SENDER }).1
    { Address := "a", Type_ := .LISTENER, Status := .DELETE } rfl).1
    { CancelFn := some 3, ParentContext := some 3, Client := some 4,
      Protocol := some ⟨2, .receiver, none, some 1, "a", some 50⟩ } 3 rfl (by decide) rfl).1

/-! ## C10: the stand-alone pair constructor -/

theorem NewSenderReceiver_first_failure (w : World) (n : Nat) (hostName : String) (port : Int)
    (senderAddress receiverAddress err : String)
    (h : w n (.NewReceiverProtocol (hostName ++ ":" ++ toString port) senderAddress
      amqpLinkCredit) = some err) :
    NewSenderReceiver w n hostName port senderAddress receiverAddress =
      (n + 1,
        [.call n (.NewReceiverProtocol (hostName ++ ":" ++ toString port) senderAddress
            amqpLinkCredit) (some err),
          .log "Failed to create amqp protocol for a Receiver: %v"],
        .ret (some {}, none, some err)) := by
  simp [NewSenderReceiver, NewReceiver, h]

theorem NewSenderReceiver_ok_roles (w : World) (n : Nat) (hostName : String) (port : Int)
    (senderAddress receiverAddress : String) (s r : Protocol)
    (h : (NewSenderReceiver w n hostName port senderAddress receiverAddress).2.2 =
      .ret (some s, some r, none)) :
    s.Protocol.map (fun p => (p.role, p.address, p.linkCredit)) =
        some (.receiver, senderAddress, some amqpLinkCredit) ∧
      s.CancelFn.isSome = true ∧
      r.Protocol.map (fun p => (p.role, p.address, p.linkCredit)) =
        some (.sender, receiverAddress, none) ∧
      r.CancelFn = none := by
  unfold NewSenderReceiver NewReceiver NewSender at h
  cases h1 : w n (.NewReceiverProtocol (hostName ++ ":" ++ toString port) senderAddress
      amqpLinkCredit) <;> simp [h1] at h
  cases h2 : w (n + 2) (.NewClient n) <;> simp [h2] at h
  cases h3 : w (n + 3) (.NewSenderProtocol (hostName ++ ":" ++ toString port)
      receiverAddress) <;> simp [h3] at h
  cases h4 : w (n + 3 + 1) (.NewClient (n + 3)) <;> simp [h4] at h
  obtain ⟨rfl, rfl⟩ := h
  simp

/-- C10, at host "localhost", port 5672, sender address "s", receiver address "r" and no
failing call: the first result (`sender`) is a receiver link on "s" with a cancellation
handle and the link credit 50, the second (`receiver`) is a sender link on "r" with
neither. -/
theorem NewSenderReceiver_roles_swapped :
    (NewSenderReceiver allOk 0 "localhost" 5672 "s" "r").2.2 =
      .ret
        (some { CancelFn := some 1, ParentContext := some 1, Client := some 2,
                Protocol := some ⟨0, .receiver, some "localhost:5672", none, "s", some 50⟩ },
          some { Client := some 4,
                 Protocol := some ⟨3, .sender, some "localhost:5672", none, "r", none⟩ },
          none) := by
  rfl

end amqp
